import Mathlib

/-!
Shallow embedding of the wagmi-playground repository's signature / bytecode
playground logic, together with theorems checking the natural-language
specification against it.

The embedded code lives in:
  * `src/theories/is-valid-signature/useIsValidSignaturePlayground.ts`
    (two successive versions in the file: an ethers-based one, called "V1"
    below, and a wagmi/viem-based one, called "V2" below),
  * `src/theories/is-valid-signature/utils.ts` (validators, ethers v5) and
    the ethers-v6 rewrite of the same validators,
  * `src/theories/bytecode-size/useBytecodeSizeExperiment.ts`.

External library primitives that the repository treats as black boxes
(keccak256, address checksumming, viem `parseSignature`, `JSON.parse`,
`JSON.stringify`, the chain RPC transport) are taken as explicit function
parameters; everything the repository itself computes is transcribed.
Asynchronous adapter calls are modelled by passing the call's outcome
(`Except`-valued) to the transcribed action, which computes the final
state exactly as the source's success / catch branches do.
-/

/-- JS truthiness on characters is irrelevant here; this is the character
class of the regex `[0-9A-Fa-f]` used by ethers' `isHexString`. -/
def isHexDigit (c : Char) : Bool :=
  ('0' ≤ c && c ≤ '9') || ('a' ≤ c && c ≤ 'f') || ('A' ≤ c && c ≤ 'F')

/-- ethers `isHexString(value, length?)`: the string must match
`^0x[0-9A-Fa-f]*$`, and when a length is supplied, `value.length`
must equal `2 + 2 * length`. Identical in ethers v5 and v6 for the
uses in this repository. -/
def isHexString (value : String) (len : Option Nat) : Bool :=
  (match value.data with
   | c1 :: c2 :: rest => c1 == '0' && c2 == 'x' && rest.all isHexDigit
   | _ => false)
  && (match len with
      | some n => value.length == 2 + 2 * n
      | none => true)

/-- viem `isHex(value, \x7b strict: false \x7d)`: only requires the string to be
nonempty and start with "0x". -/
def isHexLoose (value : String) : Bool :=
  value != "" &&
    (match value.data with
     | c1 :: c2 :: _ => c1 == '0' && c2 == 'x'
     | _ => false)

/-- JS `String.prototype.toLowerCase` restricted to the ASCII range, which
is all the embedded code ever lower-cases (hex strings). -/
def toLowerStr (s : String) : String := String.mk (s.data.map Char.toLower)

/-- The regex `^0x[a-fA-F0-9]\x7b40\x7d$` used by viem `isAddress`. -/
def addrShape (a : String) : Bool :=
  match a.data with
  | c1 :: c2 :: rest => c1 == '0' && c2 == 'x' && rest.all isHexDigit && rest.length == 40
  | _ => false

/-- viem `isAddress(address)` (strict, the default): the 40-hex-digit shape,
then all-lowercase addresses are accepted outright, otherwise the EIP-55
checksummed rendering (external keccak-based primitive, passed in as
`checksum`) must equal the input. -/
def isAddressViem (checksum : String → String) (a : String) : Bool :=
  addrShape a && (toLowerStr a == a || checksum a == a)

/-- `normalizeBytes` from `useBytecodeSizeExperiment.ts` (lines 100-111),
transcribed as-is: note that the branch guarded by `typeof size === "number"`
repeats the very same loose hex test instead of checking the size, and that
viem `isHex(value, \x7b strict: false \x7d)` only tests the "0x" prefix. -/
def normalizeBytes (value : String) (size : Option Nat) : Bool :=
  if value = "" then false
  else if !(isHexLoose value) then false
  else if size.isSome && !(isHexLoose value) then false
  else true

/-- `validateHash` from `is-valid-signature/utils.ts` (ethers v5 version). -/
def validateHash (hash : String) : Option String :=
  if hash = "" then some "Укажите хеш"
  else if !(isHexString hash none) then some "Хеш должен быть hex-строкой"
  else if !(isHexString hash (some 32)) then some "Хеш должен соответствовать bytes32"
  else none

/-- `validateSignature` from `is-valid-signature/utils.ts` (ethers v5 version). -/
def validateSignature (signature : String) : Option String :=
  if signature = "" then some "Укажите подпись"
  else if !(isHexString signature none) then some "Подпись должна быть hex-строкой"
  else if !(isHexString signature (some 65)) then some "Подпись должна соответствовать 65 байтам"
  else none

/-- `validateAddress` from `is-valid-signature/utils.ts`; ethers `isAddress`
depends on keccak checksumming, so it is a parameter. -/
def validateAddress (isAddr : String → Bool) (value : String) (errorMessage : String) :
    Option String :=
  if !(isAddr value) then some errorMessage else none

/-- `validateHash` from the ethers-v6 rewrite of the validators (the version
imported by the wagmi/viem playground), English messages. -/
def validateHashV6 (hash : String) : Option String :=
  if hash = "" then some "Enter a hash"
  else if !(isHexString hash none) then some "Hash must be a hex string"
  else if !(isHexString hash (some 32)) then some "Hash must be a bytes32 hex string"
  else none

/-- `validateSignature` from the ethers-v6 rewrite: the argument is
`Hex | undefined`, and both `undefined` and `""` are falsy. -/
def validateSignatureV6 (signature : Option String) : Option String :=
  match signature with
  | none => some "Enter a signature"
  | some sg =>
    if sg = "" then some "Enter a signature"
    else if !(isHexString sg none) then some "Signature must be a hex string"
    else if !(isHexString sg (some 65)) then some "Signature must be 65 bytes long"
    else none

/-- `ERC1271_MAGIC_VALUE` from `constants.general.ts` and
`bytecode-size/constants.ts` (identical constant). -/
def ERC1271_MAGIC_VALUE : String := "0x1626ba7e"

/-- The V1 (ethers) playground's magic comparison, applied to one raw result
field: `(result ?? "").toLowerCase() === ERC1271_MAGIC_VALUE.toLowerCase()`. -/
def matchesMagicV1 (result : Option String) : Bool :=
  toLowerStr (result.getD "") == toLowerStr ERC1271_MAGIC_VALUE

/-- The V2 (wagmi) playground's magic comparison, applied to one raw result
field: `(result ?? "").toLowerCase() === ERC1271_MAGIC_VALUE`. -/
def matchesMagicV2 (result : Option String) : Bool :=
  toLowerStr (result.getD "") == ERC1271_MAGIC_VALUE

/-- `isErc1271MagicValue` from `useBytecodeSizeExperiment.ts` (line 486):
a plain strict equality, `value === ERC1271_MAGIC_VALUE`. -/
def isErc1271MagicValue (value : Option String) : Bool :=
  value == some ERC1271_MAGIC_VALUE

/-- Spec-side notion used by the claims: a well-formed hex string encoding
exactly 32 bytes ("0x" plus 64 hex digits). -/
def isBytes32Hex (value : String) : Bool :=
  match value.data with
  | c1 :: c2 :: rest => c1 == '0' && c2 == 'x' && rest.all isHexDigit && rest.length == 64
  | _ => false

/-- UTF-8 encoding of a single code point (the standard algorithm, matching
ethers `toUtf8Bytes` on valid scalar values). -/
def utf8EncodeChar (n : Nat) : List Nat :=
  if n < 128 then [n]
  else if n < 2048 then [192 + n / 64, 128 + n % 64]
  else if n < 65536 then [224 + n / 4096, 128 + (n / 64) % 64, 128 + n % 64]
  else [240 + n / 262144, 128 + (n / 4096) % 64, 128 + (n / 64) % 64, 128 + n % 64]

/-- ethers `toUtf8Bytes` on a string. -/
def utf8Bytes (s : String) : List Nat := (s.data.map (fun c => utf8EncodeChar c.toNat)).flatten

/-- ethers `hashMessage(message)` for a string argument: keccak256 of
`"\x19Ethereum Signed Message:\n" + byteLength + messageBytes`, with the
keccak256 primitive (which returns the hex digest string) as a parameter. -/
def hashMessageE (keccak : List Nat → String) (message : String) : String :=
  keccak (utf8Bytes "\x19Ethereum Signed Message:\n"
          ++ utf8Bytes (toString (utf8Bytes message).length)
          ++ utf8Bytes message)

/-- The shape of a rejected adapter call as seen by the `getErrorMessage`
helpers: a viem `BaseError` (with `shortMessage` and `message`), a plain
JS `Error` (with `message`), or any other thrown value. -/
inductive CallError where
  | base (shortMessage : String) (message : String)
  | plain (message : String)
  | other
deriving DecidableEq

/-- `getErrorMessage` from the V2 (wagmi) playground: BaseError prefers
`shortMessage || message` (JS `||`, so an empty short message falls back),
a plain Error yields its message, anything else the Russian fallback. -/
def getErrorMessageV2 : CallError → String
  | .base sm m => if sm = "" then m else sm
  | .plain m => m
  | .other => "Вызов завершился ошибкой"

/-- `getErrorMessage` from `useBytecodeSizeExperiment.ts`: same precedence,
with the "Unknown error" fallback. -/
def getErrorMessageExp : CallError → String
  | .base sm m => if sm = "" then m else sm
  | .plain m => m
  | .other => "Unknown error"

/-- The V1 playground classifies a rejection inline as
`error?.message ?? fallback`; the optional message is the error's
`message` property. -/
def errMsgV1 (message : Option String) : String :=
  message.getD "Вызов завершился ошибкой"

/-- `PlaygroundState` of the V1 (ethers) playground hook, the `useState`
cells it is assembled from. `signature` is a plain string there. -/
structure PgState where
  message : String
  hashMessage : String
  rawKeccakHash : String
  signature : String
  userAddress : String
  helperAddress : String
  targetAddress : String
  helperResult : Option String
  helperError : Option String
  targetResult : Option String
  targetError : Option String
  hashError : Option String
  signError : Option String
  isSigning : Bool
  isCallingHelper : Bool
  isCallingTarget : Bool
deriving DecidableEq

/-- `PlaygroundState` of the V2 (wagmi) playground hook: `signature` is
`Hex | undefined` and the saved hash starts out as `""`. -/
structure PgState2 where
  message : String
  hashMessage : String
  rawKeccakHash : String
  signature : Option String
  userAddress : String
  helperAddress : String
  targetAddress : String
  helperResult : Option String
  helperError : Option String
  targetResult : Option String
  targetError : Option String
  hashError : Option String
  signError : Option String
  isSigning : Bool
  isCallingHelper : Bool
  isCallingTarget : Bool
deriving DecidableEq

/-- `actions.setMessage` of both playground versions is the raw `useState`
setter for the message cell: it writes the message field and nothing else. -/
def setMessageAction (s : PgState) (value : String) : PgState :=
  { s with message := value }

/-- `computeHashes` of the V1 playground (lines 92-107): an empty message
sets `hashError`; otherwise both hashes are recomputed from the message and
`hashError` is cleared. The keccak256 primitive is a parameter. -/
def computeHashesAction (keccak : List Nat → String) (s : PgState) : PgState :=
  if s.message = "" then
    { s with hashError := some "Введите сообщение для хеширования" }
  else
    { s with hashMessage := hashMessageE keccak s.message,
             rawKeccakHash := keccak (utf8Bytes s.message),
             hashError := none }

/-- The validation prefix of the V1 `callTarget` (lines 199-224): provider
presence, then hash, signature and target-address validation, first failure
wins. Returns the error that would be stored, `none` when the call proceeds. -/
def callTargetV1Check (isAddr : String → Bool) (provider : Option Unit) (s : PgState) :
    Option String :=
  if provider.isNone then some "Провайдер не инициализирован"
  else match validateHash s.hashMessage with
  | some e => some e
  | none => match validateSignature s.signature with
    | some e => some e
    | none => validateAddress isAddr s.targetAddress "Укажите корректный адрес контракта"

/-- The state of the V1 playground at the instant the `isValidSignature`
read is in flight: the try block has set the pending flag and cleared the
previous error and result (lines 226-229). -/
def callTargetV1Pending (s : PgState) : PgState :=
  { s with isCallingTarget := true, targetError := none, targetResult := none }

/-- The complete V1 `callTarget` action (lines 199-238). `outcome` is the
resolution of the ethers contract read: `.ok` carries the returned bytes4
hex string, `.error` the rejection's optional `message`. -/
def callTargetV1 (isAddr : String → Bool) (provider : Option Unit) (s : PgState)
    (outcome : Except (Option String) String) : PgState :=
  match callTargetV1Check isAddr provider s with
  | some e => { s with targetError := some e }
  | none =>
    let p := callTargetV1Pending s
    match outcome with
    | .ok r => { p with targetResult := some r, isCallingTarget := false }
    | .error e => { p with targetError := some (errMsgV1 e), isCallingTarget := false }

/-- The validation prefix of the V1 `callHelper` (lines 139-173): provider
presence, then hash, signature, helper address and user address. -/
def callHelperV1Check (isAddr : String → Bool) (provider : Option Unit) (s : PgState) :
    Option String :=
  if provider.isNone then some "Провайдер не инициализирован"
  else match validateHash s.hashMessage with
  | some e => some e
  | none => match validateSignature s.signature with
    | some e => some e
    | none => match validateAddress isAddr s.helperAddress "Укажите корректный адрес helper-контракта" with
      | some e => some e
      | none => validateAddress isAddr s.userAddress "Укажите корректный адрес пользователя"

/-- The complete V1 `callHelper` action (lines 139-190). -/
def callHelperV1 (isAddr : String → Bool) (provider : Option Unit) (s : PgState)
    (outcome : Except (Option String) String) : PgState :=
  match callHelperV1Check isAddr provider s with
  | some e => { s with helperError := some e }
  | none =>
    let p := { s with isCallingHelper := true, helperError := none, helperResult := none }
    match outcome with
    | .ok r => { p with helperResult := some r, isCallingHelper := false }
    | .error e => { p with helperError := some (errMsgV1 e), isCallingHelper := false }

/-- The validation prefix of the V2 (wagmi) `callTarget` (lines 533-552):
hash, signature, target address — there is no client/provider presence
guard in this version of the hook. -/
def callTargetV2Check (isAddr : String → Bool) (s : PgState2) : Option String :=
  match validateHashV6 s.hashMessage with
  | some e => some e
  | none => match validateSignatureV6 s.signature with
    | some e => some e
    | none => validateAddress isAddr s.targetAddress "Укажите корректный адрес контракта"

/-- The complete V2 `callTarget` action (lines 532-565). The `client`
argument models the ambient chain client of the selected network; the
source never consults it (the wagmi `refetch` handle is used directly),
which is why the body ignores it. A successful refetch resolves with
`data`, possibly `undefined`, and the result is set to `data ?? null`. -/
def callTargetV2 (isAddr : String → Bool) (_client : Option Unit) (s : PgState2)
    (outcome : Except CallError (Option String)) : PgState2 :=
  match callTargetV2Check isAddr s with
  | some e => { s with targetError := some e }
  | none =>
    let p := { s with isCallingTarget := true, targetError := none, targetResult := none }
    match outcome with
    | .ok data => { p with targetResult := data, isCallingTarget := false }
    | .error e => { p with targetError := some (getErrorMessageV2 e), isCallingTarget := false }

/-- `parsedSignature` of the V2 playground (lines 567-578): `null` when the
signature cell is `undefined` or empty, otherwise viem `parseSignature`
(a throwing external primitive, modelled `Option`-valued) under `try`,
with `catch` returning `null`. -/
structure SplitSig where
  r : String
  s : String
  yParity : Nat
deriving DecidableEq

/-- See `SplitSig`. -/
def parsedSignatureV2 (parseSig : String → Option SplitSig) (signature : Option String) :
    Option SplitSig :=
  match signature with
  | none => none
  | some sg => if sg = "" then none else parseSig sg

/-- `parsedSignature` of the V1 playground (lines 240-250): same shape over
ethers `splitSignature`, with the signature cell a plain string whose empty
value is falsy. -/
def parsedSignatureV1 (parseSig : String → Option SplitSig) (signature : String) :
    Option SplitSig :=
  if signature = "" then none else parseSig signature

/-- A parsed JSON value as `JSON.parse` produces it (the reviver in
`parseJsonInput` is the identity on everything JSON can yield). Numbers are
modelled as integers: no claim depends on fractional values. -/
inductive Json where
  | null
  | bool (b : Bool)
  | num (n : Int)
  | str (s : String)
  | arr (items : List Json)
  | obj (fields : List (String × Json))

/-- JS truthiness of a parsed JSON value (`NaN` cannot arise from JSON). -/
def jsTruthy : Json → Bool
  | .null => false
  | .bool b => b
  | .num n => n != 0
  | .str s => s != ""
  | .arr _ => true
  | .obj _ => true

/-- The properties every JS object inherits from `Object.prototype`
(all functions, except `__proto__` which is an object — truthy either way). -/
def objectProtoKeys : List String :=
  ["constructor", "hasOwnProperty", "isPrototypeOf", "propertyIsEnumerable",
   "toLocaleString", "toString", "valueOf", "__proto__",
   "__defineGetter__", "__defineSetter__", "__lookupGetter__", "__lookupSetter__"]

/-- The standard method properties of `Array.prototype` (all functions). -/
def arrayProtoKeys : List String :=
  ["at", "concat", "copyWithin", "entries", "every", "fill", "filter", "find",
   "findIndex", "findLast", "findLastIndex", "flat", "flatMap", "forEach",
   "includes", "indexOf", "join", "keys", "lastIndexOf", "map", "pop", "push",
   "reduce", "reduceRight", "reverse", "shift", "slice", "some", "sort",
   "splice", "toReversed", "toSorted", "toSpliced", "unshift", "values", "with"]

/-- The standard method properties of `String.prototype` (all functions). -/
def stringProtoKeys : List String :=
  ["at", "charAt", "charCodeAt", "codePointAt", "concat", "endsWith",
   "includes", "indexOf", "lastIndexOf", "localeCompare", "normalize",
   "padEnd", "padStart", "repeat", "replace", "replaceAll", "search",
   "slice", "split", "startsWith", "substring", "toLowerCase",
   "toUpperCase", "trim", "trimEnd", "trimStart"]

/-- The standard method properties of `Number.prototype` beyond the ones
shared with `Object.prototype` (all functions). -/
def numberProtoKeys : List String := ["toExponential", "toFixed", "toPrecision"]

/-- The value a JS bracket lookup yields: either an own data property that
came from the JSON text, or a property inherited from the prototype chain
(`Object.prototype` and the wrapper prototypes), which for the standard
prototypes is always a function or an object and hence truthy. -/
inductive JsProp where
  | val (v : Json)
  | builtin

/-- JS truthiness of a looked-up property. -/
def jsTruthyProp : JsProp → Bool
  | .val v => jsTruthy v
  | .builtin => true

/-- JS bracket lookup `v[k]` for a string key on a parsed JSON value,
`none` meaning `undefined`. Own properties come first (JSON object keys,
canonical array/string indices, array/string `length`), then the prototype
chain: `Object.prototype` for objects, plus `Array.prototype`,
`String.prototype` or `Number.prototype` for the boxed primitives.
Indexing `null` throws in JS and is handled by `jsIndexThrows`. -/
def jsIndex : Json → String → Option JsProp
  | .obj fields, k =>
    match (fields.find? (fun p => p.1 == k)).map (fun p => p.2) with
    | some v => some (JsProp.val v)
    | none => if objectProtoKeys.contains k then some JsProp.builtin else none
  | .arr items, k =>
    if k == "length" then some (JsProp.val (Json.num (Int.ofNat items.length)))
    else match k.toNat? with
    | some i => if toString i == k then (items.get? i).map JsProp.val else none
    | none =>
      if arrayProtoKeys.contains k || objectProtoKeys.contains k then some JsProp.builtin
      else none
  | .str str, k =>
    if k == "length" then some (JsProp.val (Json.num (Int.ofNat str.length)))
    else match k.toNat? with
    | some i =>
      if toString i == k then (str.data.get? i).map (fun c => JsProp.val (Json.str (String.mk [c])))
      else none
    | none =>
      if stringProtoKeys.contains k || objectProtoKeys.contains k then some JsProp.builtin
      else none
  | .num _, k =>
    if numberProtoKeys.contains k || objectProtoKeys.contains k then some JsProp.builtin
    else none
  | .bool _, k =>
    if objectProtoKeys.contains k then some JsProp.builtin else none
  | .null, _ => none

/-- Indexing `null` with any key throws a TypeError in JS (`undefined`
cannot arise from `JSON.parse`). -/
def jsIndexThrows : Json → Bool
  | .null => true
  | _ => false

/-- Spec-side notion used by claim C8: an own key of the parsed types
value, i.e. a key that is actually present in the JSON object itself. -/
def jsOwnProperty (v : Json) (k : String) : Option Json :=
  match v with
  | .obj fields => (fields.find? (fun p => p.1 == k)).map (fun p => p.2)
  | _ => none

/-- `BytecodeResult` from `useBytecodeSizeExperiment.ts`. -/
structure BytecodeResult where
  address : String
  bytecode : Option String
  size : Nat
  isContract : Bool
deriving DecidableEq

/-- `ExperimentState` of `useBytecodeSizeExperiment`, plus the selected
`chainId` and the ambient `publicClient` handle for that network (the
wagmi `usePublicClient` value the hook closes over, `none` when the client
for the selected chain is not initialized). -/
structure ExpState where
  domainInput : String
  typesInput : String
  messageInput : String
  primaryType : String
  signatureInput : String
  payloadForSigning : Option String
  payloadError : Option String
  autogenerateError : Option String
  typedDataError : Option String
  isRecovering : Bool
  isAutogenerating : Bool
  claimedSigner : Option String
  addressInput : String
  bytecodeResult : Option BytecodeResult
  bytecodeError : Option String
  isFetchingBytecode : Bool
  hashInput : String
  erc1271Signature : String
  erc1271Result : Option String
  erc1271Error : Option String
  isChecking1271 : Bool
  chainId : Nat
  publicClient : Option Unit
deriving DecidableEq

/-- The initial experiment state, from the `useState` initializers of the
hook (chain 1 is `AVAILABLE_CHAINS[0]`, mainnet). -/
def expInitialState : ExpState where
  domainInput := "\x7b\x7d"
  typesInput := "\x7b\x7d"
  messageInput := "\x7b\x7d"
  primaryType := ""
  signatureInput := "0x"
  payloadForSigning := none
  payloadError := none
  autogenerateError := none
  typedDataError := none
  isRecovering := false
  isAutogenerating := false
  claimedSigner := none
  addressInput := ""
  bytecodeResult := none
  bytecodeError := none
  isFetchingBytecode := false
  hashInput := ""
  erc1271Signature := "0x"
  erc1271Result := none
  erc1271Error := none
  isChecking1271 := false
  chainId := 1
  publicClient := some ()

/-- `setChainId` together with the `useEffect` on `chainId` (lines 141-146):
selecting a different chain clears the bytecode result/error and the
ERC-1271 result/error; re-selecting the current chain is a no-op re-render
(React bails out on identical state) and the effect does not re-fire. -/
def setChainIdAction (s : ExpState) (newChainId : Nat) : ExpState :=
  if newChainId = s.chainId then s
  else { s with chainId := newChainId,
                bytecodeResult := none, bytecodeError := none,
                erc1271Result := none, erc1271Error := none }

/-- The validation prefix of `fetchBytecode` (lines 312-326): client
presence, nonempty address, viem address validity. Returns the error that
would be stored, `none` when the `getCode` call proceeds. -/
def fetchBytecodeCheck (checksum : String → String) (s : ExpState) : Option String :=
  if s.publicClient.isNone then some "The public client has not been initialized yet"
  else if s.addressInput = "" then some "Enter an address to inspect"
  else if !(isAddressViem checksum s.addressInput) then some "Address must be valid"
  else none

/-- The complete `fetchBytecode` action (lines 312-345). The outcome of
`publicClient.getCode` is `Hex | undefined`; the size is
`(bytecode.length - 2) / 2` for a nonempty non-"0x" result, else 0. -/
def fetchBytecode (checksum : String → String) (s : ExpState)
    (outcome : Except CallError (Option String)) : ExpState :=
  let s0 := { s with bytecodeError := none, bytecodeResult := none }
  match fetchBytecodeCheck checksum s0 with
  | some e => { s0 with bytecodeError := some e }
  | none =>
    let p := { s0 with isFetchingBytecode := true }
    match outcome with
    | .ok bytecode =>
      let normalized := checksum s0.addressInput
      let isContract := match bytecode with
        | some b => b != "0x" && b != ""
        | none => false
      let size := match bytecode with
        | some b => if b != "0x" && b != "" then (b.length - 2) / 2 else 0
        | none => 0
      { p with bytecodeResult := some ⟨normalized, bytecode, size, isContract⟩,
               isFetchingBytecode := false }
    | .error e => { p with bytecodeError := some (getErrorMessageExp e), isFetchingBytecode := false }

/-- The validation prefix of `checkErc1271` (lines 347-365): client
presence, address, then `normalizeBytes(hashInput, 32)` and
`normalizeBytes(erc1271Signature)` exactly as written in the source. -/
def checkErc1271Check (checksum : String → String) (s : ExpState) : Option String :=
  if s.publicClient.isNone then some "The public client has not been initialized yet"
  else if s.addressInput = "" || !(isAddressViem checksum s.addressInput) then
    some "Enter a valid address to call"
  else if !(normalizeBytes s.hashInput (some 32)) then some "hash must be a bytes32 hex string"
  else if !(normalizeBytes s.erc1271Signature none) then some "signature must be a hex string"
  else none

/-- The synchronous first two statements of `checkErc1271` (lines 348-349):
the previous ERC-1271 error and result are cleared before anything else. -/
def erc1271Cleared (s : ExpState) : ExpState :=
  { s with erc1271Error := none, erc1271Result := none }

/-- The state of the experiment at the instant the ERC-1271 read is in
flight: result and error were cleared at the top of the action (lines
348-349) and the pending flag is set (line 368). -/
def checkErc1271Pending (s : ExpState) : ExpState :=
  { s with erc1271Error := none, erc1271Result := none, isChecking1271 := true }

/-- The complete `checkErc1271` action (lines 347-382). `outcome` is the
resolution of `publicClient.readContract` for `isValidSignature`. -/
def checkErc1271 (checksum : String → String) (s : ExpState)
    (outcome : Except CallError String) : ExpState :=
  let s0 := erc1271Cleared s
  match checkErc1271Check checksum s0 with
  | some e => { s0 with erc1271Error := some e }
  | none =>
    let p := { s0 with isChecking1271 := true }
    match outcome with
    | .ok r => { p with erc1271Result := some r, isChecking1271 := false }
    | .error e => { p with erc1271Error := some (getErrorMessageExp e), isChecking1271 := false }

/-- `generatePayload` (lines 212-251): clears the stale payload state, then
parses the three JSON fields with `parseJsonInput` (each with its own
message), requires a nonempty `primaryType` whose JS lookup
`typedData[primaryType]` — own properties or the prototype chain, see
`jsIndex` — is truthy, and only then stringifies the payload. All thrown
errors land in `payloadError` via `getErrorMessage` (plain `Error`s keep
their message; the TypeError thrown when `types` parsed to `null` carries a
host-defined message, modelled by a representative constant). `parse` and
`stringify` model the `JSON` builtins. -/
def generatePayload (parse : String → Option Json) (stringify : Json → String)
    (s : ExpState) : ExpState :=
  let s0 := { s with autogenerateError := none, payloadError := none, payloadForSigning := none }
  match parse s0.domainInput with
  | none => { s0 with payloadError := some "Domain must be valid JSON" }
  | some domain =>
    match parse s0.typesInput with
    | none => { s0 with payloadError := some "Types must be valid JSON" }
    | some types =>
      match parse s0.messageInput with
      | none => { s0 with payloadError := some "Message must be valid JSON" }
      | some message =>
        if s0.primaryType = "" then { s0 with payloadError := some "Specify primaryType" }
        else if jsIndexThrows types then
          { s0 with payloadError := some "Cannot read properties of null" }
        else
          match jsIndex types s0.primaryType with
          | none =>
            { s0 with payloadError := some "The provided primaryType is missing in types" }
          | some p =>
            if !(jsTruthyProp p) then
              { s0 with payloadError := some "The provided primaryType is missing in types" }
            else
              let payload := stringify (Json.obj
                [("types", types), ("domain", domain),
                 ("primaryType", Json.str s0.primaryType), ("message", message)])
              { s0 with payloadForSigning := some payload }

/-- A well-formed 32-byte hash literal (64 hex digits) for concrete runs. -/
def hash32lit : String :=
  "0x1111111111111111111111111111111111111111111111111111111111111111"

/-- A well-formed 65-byte signature literal (130 hex digits) for concrete runs. -/
def sig65lit : String :=
  "0x2222222222222222222222222222222222222222222222222222222222222222222222222222222222222222222222222222222222222222222222222222222222"

/-- A well-formed all-lowercase 20-byte address literal for concrete runs. -/
def addr40lit : String := "0xaaaaaaaaaaaaaaaaaaaaaaaaaaaaaaaaaaaaaaaa"

/-- A concrete V1 playground state whose hash, signature and addresses all
pass the format validators, with a stale target result still stored. -/
def pgStateValid : PgState where
  message := "hello"
  hashMessage := hash32lit
  rawKeccakHash := ""
  signature := sig65lit
  userAddress := addr40lit
  helperAddress := addr40lit
  targetAddress := addr40lit
  helperResult := none
  helperError := none
  targetResult := some "0xstale"
  targetError := none
  hashError := none
  signError := none
  isSigning := false
  isCallingHelper := false
  isCallingTarget := false

/-- A concrete V2 playground state with every input still empty. -/
def pgState2Empty : PgState2 where
  message := ""
  hashMessage := ""
  rawKeccakHash := ""
  signature := none
  userAddress := ""
  helperAddress := ""
  targetAddress := ""
  helperResult := none
  helperError := none
  targetResult := none
  targetError := none
  hashError := none
  signError := none
  isSigning := false
  isCallingHelper := false
  isCallingTarget := false

/-- The experiment state with the chain client for the selected network absent. -/
def expNoClient : ExpState := { expInitialState with publicClient := none }

/-- A concrete experiment state whose address is valid and whose hash input
is a 2-byte hex string — far from 32 bytes. -/
def expBadHashState : ExpState :=
  { expInitialState with addressInput := addr40lit, hashInput := "0x1234",
                         erc1271Signature := "0x01" }

/-- A concrete experiment state whose ERC-1271 inputs all pass the
source's validation, with a stale ERC-1271 result still stored. -/
def expValidState : ExpState :=
  { expInitialState with addressInput := addr40lit, hashInput := hash32lit,
                         erc1271Signature := sig65lit, erc1271Result := some "0xstale" }

/-- A concrete experiment state whose types field is not valid JSON for
`toyParse` below. -/
def expBadTypesState : ExpState := { expInitialState with typesInput := "bad" }

/-- A concrete experiment state whose three JSON fields all parse (to empty
objects under `toyParse`) and whose primaryType names a property inherited
from `Object.prototype` rather than a key of the parsed types. -/
def expProtoState : ExpState := { expInitialState with primaryType := "toString" }

/-- A tiny concrete stand-in for `JSON.parse` used only to instantiate the
universally-quantified theorems at a computable point. -/
def toyParse : String → Option Json
  | "\x7b\x7d" => some (Json.obj [])
  | "T" => some (Json.obj [("Mail", Json.arr [Json.str "field"])])
  | _ => none

/-- A tiny concrete stand-in for `JSON.stringify`, likewise only used to
instantiate theorems. -/
def toyStringify : Json → String := fun _ => "payload"

theorem bytes32_imp_hex (H : String) (h : isBytes32Hex H = true) :
    isHexString H none = true := by
  obtain ⟨l⟩ := H
  rcases l with _ | ⟨c1, l2⟩
  · simp [isBytes32Hex] at h
  rcases l2 with _ | ⟨c2, rest⟩
  · simp [isBytes32Hex] at h
  · simp only [isBytes32Hex, Bool.and_eq_true, beq_iff_eq] at h
    simp only [isHexString, Bool.and_true, Bool.and_eq_true, beq_iff_eq]
    exact h.1

theorem hex32_char_iff (H : String) :
    isHexString H (some 32) = true ↔ isBytes32Hex H = true := by
  obtain ⟨l⟩ := H
  rcases l with _ | ⟨c1, l2⟩
  · simp [isHexString, isBytes32Hex]
  rcases l2 with _ | ⟨c2, rest⟩
  · simp [isHexString, isBytes32Hex]
  · simp only [isHexString, isBytes32Hex, Bool.and_eq_true, beq_iff_eq,
      String.length, List.length_cons]
    constructor
    · rintro ⟨⟨⟨h1, h2⟩, h3⟩, h4⟩
      exact ⟨⟨⟨h1, h2⟩, h3⟩, by omega⟩
    · rintro ⟨⟨⟨h1, h2⟩, h3⟩, h4⟩
      exact ⟨⟨⟨h1, h2⟩, h3⟩, by omega⟩

/-- C9: `validateHash` accepts exactly the well-formed 32-byte hex strings:
it returns `null` iff the input is "0x" followed by 64 hex digits, and a
non-null error string in every other case (empty, non-hex, wrong length). -/
theorem validateHash_correct (H : String) :
    validateHash H = none ↔ isBytes32Hex H = true := by
  unfold validateHash
  split_ifs with h1 h2 h3
  · constructor
    · intro hc; simp at hc
    · intro hb; subst h1; simp [isBytes32Hex] at hb
  · constructor
    · intro hc; simp at hc
    · intro hb
      have hx := bytes32_imp_hex H hb
      simp [hx] at h2
  · constructor
    · intro hc; simp at hc
    · intro hb
      have hx := (hex32_char_iff H).mpr hb
      simp [hx] at h3
  · simp only [Bool.not_eq_true] at h3
    simp at h3
    simp [(hex32_char_iff H).mp h3]

/-- C1 counterexample: the value "0x1626BA7E" is a well-formed bytes4 hex
string whose lower-casing equals the magic constant, and the case-sensitive
playground comparison `matchesMagic` accepts it, but `isErc1271MagicValue`
(a strict `===` against "0x1626ba7e") rejects it. -/
theorem isErc1271MagicValue_case_cex :
    toLowerStr "0x1626BA7E" = "0x1626ba7e"
    ∧ isHexString "0x1626BA7E" (some 4) = true
    ∧ matchesMagicV1 (some "0x1626BA7E") = true
    ∧ matchesMagicV2 (some "0x1626BA7E") = true
    ∧ isErc1271MagicValue (some "0x1626BA7E") = false := by
  decide

/-- C1 (amended): both playgrounds' `matchesMagic` comparisons are
case-insensitive — true iff the lower-cased result equals "0x1626ba7e" —
while the bytecode experiment's `isErc1271MagicValue` is a strict,
case-sensitive equality with the exact string "0x1626ba7e". -/
theorem magic_comparison_characterization (r : Option String) :
    (matchesMagicV1 r = true ↔ toLowerStr (r.getD "") = "0x1626ba7e")
    ∧ (matchesMagicV2 r = true ↔ toLowerStr (r.getD "") = "0x1626ba7e")
    ∧ (isErc1271MagicValue r = true ↔ r = some "0x1626ba7e") := by
  have hm : toLowerStr ERC1271_MAGIC_VALUE = "0x1626ba7e" := by decide
  refine ⟨?_, ?_, ?_⟩
  · simp [matchesMagicV1, hm]
  · simp [matchesMagicV2, ERC1271_MAGIC_VALUE]
  · simp [isErc1271MagicValue, ERC1271_MAGIC_VALUE]

/-- C2: the `checkErc1271` validation accepts the 2-byte hash "0x1234"
(because `normalizeBytes` never consults its `size` argument) and proceeds
to issue the on-chain read, although "0x1234" is not a 32-byte hex string —
the code contradicts its own "hash must be a bytes32 hex string" error
message and the claimed invariant. -/
theorem checkErc1271_size_validation_bug :
    checkErc1271Check (fun a => a) expBadHashState = none
    ∧ isBytes32Hex expBadHashState.hashInput = false
    ∧ normalizeBytes expBadHashState.hashInput (some 32) = true
    ∧ (checkErc1271 (fun a => a) expBadHashState (Except.ok "0x1626ba7e")).erc1271Result
      = some "0x1626ba7e" := by
  decide

/-- C3 counterexample: `setMessage` is the raw state setter; at a concrete
state holding a signature, changing the message leaves the signature stored
(not cleared) and both hashes exactly as they were (not recomputed). -/
theorem setMessage_not_clearing_cex :
    (setMessageAction pgStateValid "world").message = "world"
    ∧ (setMessageAction pgStateValid "world").signature = sig65lit
    ∧ sig65lit ≠ ""
    ∧ (setMessageAction pgStateValid "world").hashMessage = pgStateValid.hashMessage
    ∧ (setMessageAction pgStateValid "world").rawKeccakHash = pgStateValid.rawKeccakHash := by
  refine ⟨rfl, rfl, by decide, rfl, rfl⟩

/-- C3 (amended): changing the message via `setMessage` updates only the
message field — the stored signature and both hashes are untouched; the
hashes are recomputed from the (nonempty) message only when the
`computeHashes` action runs. -/
theorem setMessage_frame_and_computeHashes (s : PgState) (v : String)
    (k : List Nat → String) (s2 : PgState) (h : s2.message ≠ "") :
    (setMessageAction s v).message = v
    ∧ (setMessageAction s v).signature = s.signature
    ∧ (setMessageAction s v).hashMessage = s.hashMessage
    ∧ (setMessageAction s v).rawKeccakHash = s.rawKeccakHash
    ∧ (setMessageAction s v).hashError = s.hashError
    ∧ (computeHashesAction k s2).hashMessage = hashMessageE k s2.message
    ∧ (computeHashesAction k s2).rawKeccakHash = k (utf8Bytes s2.message)
    ∧ (computeHashesAction k s2).signature = s2.signature := by
  refine ⟨rfl, rfl, rfl, rfl, rfl, ?_, ?_, ?_⟩ <;> simp [computeHashesAction, h]

theorem setMessage_frame_and_computeHashes_witness :
    (setMessageAction pgStateValid "world").signature = pgStateValid.signature
    ∧ (computeHashesAction (fun l => toString l.length) pgStateValid).hashMessage
      = hashMessageE (fun l => toString l.length) pgStateValid.message := by
  have h := setMessage_frame_and_computeHashes pgStateValid "world"
    (fun l => toString l.length) pgStateValid (by decide)
  exact ⟨h.2.1, h.2.2.2.2.2.1⟩

/-- C7: selecting a different network clears the fetched bytecode result,
the bytecode error, the ERC-1271 result and the ERC-1271 error, and leaves
every other field of the experiment state unchanged. -/
theorem setChainId_clears_results_frame (s : ExpState) (c : Nat) (h : c ≠ s.chainId) :
    (setChainIdAction s c).chainId = c
    ∧ (setChainIdAction s c).bytecodeResult = none
    ∧ (setChainIdAction s c).bytecodeError = none
    ∧ (setChainIdAction s c).erc1271Result = none
    ∧ (setChainIdAction s c).erc1271Error = none
    ∧ (setChainIdAction s c).domainInput = s.domainInput
    ∧ (setChainIdAction s c).typesInput = s.typesInput
    ∧ (setChainIdAction s c).messageInput = s.messageInput
    ∧ (setChainIdAction s c).primaryType = s.primaryType
    ∧ (setChainIdAction s c).signatureInput = s.signatureInput
    ∧ (setChainIdAction s c).payloadForSigning = s.payloadForSigning
    ∧ (setChainIdAction s c).payloadError = s.payloadError
    ∧ (setChainIdAction s c).autogenerateError = s.autogenerateError
    ∧ (setChainIdAction s c).typedDataError = s.typedDataError
    ∧ (setChainIdAction s c).isRecovering = s.isRecovering
    ∧ (setChainIdAction s c).isAutogenerating = s.isAutogenerating
    ∧ (setChainIdAction s c).claimedSigner = s.claimedSigner
    ∧ (setChainIdAction s c).addressInput = s.addressInput
    ∧ (setChainIdAction s c).isFetchingBytecode = s.isFetchingBytecode
    ∧ (setChainIdAction s c).hashInput = s.hashInput
    ∧ (setChainIdAction s c).erc1271Signature = s.erc1271Signature
    ∧ (setChainIdAction s c).isChecking1271 = s.isChecking1271 := by
  simp [setChainIdAction, h]

theorem setChainId_clears_results_frame_witness :
    (setChainIdAction expValidState 11155111).erc1271Result = none
    ∧ (setChainIdAction expValidState 11155111).bytecodeResult = none
    ∧ (setChainIdAction expValidState 11155111).hashInput = expValidState.hashInput := by
  have h := setChainId_clears_results_frame expValidState 11155111 (by decide)
  obtain ⟨-, hb, -, he, -, -, -, -, -, -, -, -, -, -, -, -, -, -, -, hh, -, -⟩ := h
  exact ⟨he, hb, hh⟩

/-- C10: `parsedSignature` is total — it yields `none` exactly when the
signature cell is absent or empty or the underlying library parse fails,
and yields the parsed components exactly when a nonempty signature parses;
this covers both the viem-based (V2) and ethers-based (V1) versions. -/
theorem parsedSignature_total (parseSig : String → Option SplitSig)
    (sig : Option String) (sigStr : String) :
    (parsedSignatureV2 parseSig sig = none ↔
      sig = none ∨ sig = some "" ∨ ∃ t, sig = some t ∧ t ≠ "" ∧ parseSig t = none)
    ∧ (∀ c, parsedSignatureV2 parseSig sig = some c ↔
      ∃ t, sig = some t ∧ t ≠ "" ∧ parseSig t = some c)
    ∧ (parsedSignatureV1 parseSig sigStr = none ↔
      sigStr = "" ∨ parseSig sigStr = none) := by
  refine ⟨?_, ?_, ?_⟩
  · cases sig with
    | none => simp [parsedSignatureV2]
    | some t => by_cases ht : t = "" <;> simp [parsedSignatureV2, ht]
  · intro c
    cases sig with
    | none => simp [parsedSignatureV2]
    | some t => by_cases ht : t = "" <;> simp [parsedSignatureV2, ht]
  · by_cases hs : sigStr = "" <;> simp [parsedSignatureV1, hs]

/-- C4: `computeHashes` is deterministic and wallet-independent — on any
two states sharing the same non-empty message it stores identical hashes,
both computed from the message alone (the EIP-191 hash via `hashMessage`,
the raw hash as keccak256 of the UTF-8 bytes); for the message "hello" the
EIP-191 hash is keccak256 of "\x19Ethereum Signed Message:\n5hello" and
the raw content hash keccak256 of the UTF-8 bytes of "hello". -/
theorem computeHashes_deterministic (k : List Nat → String) (s s2 : PgState)
    (h : s.message = s2.message) (hne : s.message ≠ "") :
    (computeHashesAction k s).hashMessage = (computeHashesAction k s2).hashMessage
    ∧ (computeHashesAction k s).rawKeccakHash = (computeHashesAction k s2).rawKeccakHash
    ∧ (computeHashesAction k s).hashMessage = hashMessageE k s.message
    ∧ (computeHashesAction k s).rawKeccakHash = k (utf8Bytes s.message)
    ∧ (computeHashesAction k s).hashError = none
    ∧ (s.message = "hello" →
        (computeHashesAction k s).hashMessage
          = k (utf8Bytes "\x19Ethereum Signed Message:\n5hello")
        ∧ (computeHashesAction k s).rawKeccakHash = k (utf8Bytes "hello")) := by
  have hne2 : s2.message ≠ "" := by rw [← h]; exact hne
  refine ⟨?_, ?_, ?_, ?_, ?_, ?_⟩
  · simp [computeHashesAction, hne, hne2, h]
  · simp [computeHashesAction, hne, hne2, h]
  · simp [computeHashesAction, hne]
  · simp [computeHashesAction, hne]
  · simp [computeHashesAction, hne]
  · intro hh
    have hpre : utf8Bytes "\x19Ethereum Signed Message:\n"
        ++ utf8Bytes (toString (utf8Bytes "hello").length) ++ utf8Bytes "hello"
        = utf8Bytes "\x19Ethereum Signed Message:\n5hello" := by decide
    constructor <;> simp [computeHashesAction, hne, hh, hashMessageE, hpre]

theorem computeHashes_deterministic_witness :
    (computeHashesAction (fun l => toString l.length) pgStateValid).hashMessage
      = (computeHashesAction (fun l => toString l.length)
          { pgStateValid with signature := "" }).hashMessage
    ∧ (computeHashesAction (fun l => toString l.length) pgStateValid).hashMessage
      = (fun l => toString l.length) (utf8Bytes "\x19Ethereum Signed Message:\n5hello")
    ∧ (computeHashesAction (fun l => toString l.length) pgStateValid).rawKeccakHash
      = (fun l => toString l.length) (utf8Bytes "hello") := by
  have h := computeHashes_deterministic (fun l => toString l.length)
    pgStateValid { pgStateValid with signature := "" } rfl (by decide)
  exact ⟨h.1, (h.2.2.2.2.2 rfl).1, (h.2.2.2.2.2 rfl).2⟩

/-- C5: whenever a query's validations pass, the stale result is cleared
before the adapter call is in flight, and a rejected call ends with the
classified message in the error field and the result field still null;
shown for the V1 `callTarget` and for `checkErc1271`. -/
theorem query_error_keeps_result_null
    (isAddr : String → Bool) (provider : Option Unit) (s1 : PgState) (e1 : Option String)
    (checksum : String → String) (s2 : ExpState) (e2 : CallError)
    (h1 : callTargetV1Check isAddr provider s1 = none)
    (h2 : checkErc1271Check checksum (erc1271Cleared s2) = none) :
    (callTargetV1Pending s1).targetResult = none
    ∧ (callTargetV1 isAddr provider s1 (Except.error e1)).targetError = some (errMsgV1 e1)
    ∧ (callTargetV1 isAddr provider s1 (Except.error e1)).targetResult = none
    ∧ (callTargetV1 isAddr provider s1 (Except.error e1)).isCallingTarget = false
    ∧ (checkErc1271Pending s2).erc1271Result = none
    ∧ (checkErc1271 checksum s2 (Except.error e2)).erc1271Error
      = some (getErrorMessageExp e2)
    ∧ (checkErc1271 checksum s2 (Except.error e2)).erc1271Result = none := by
  simp only [erc1271Cleared] at h2
  refine ⟨rfl, ?_, ?_, ?_, rfl, ?_, ?_⟩ <;>
    simp [callTargetV1, h1, callTargetV1Pending, checkErc1271, erc1271Cleared, h2]

set_option maxRecDepth 100000 in
theorem query_error_keeps_result_null_witness :
    (callTargetV1 (fun a => a != "") (some ()) pgStateValid
      (Except.error (some "execution reverted"))).targetError
      = some (errMsgV1 (some "execution reverted"))
    ∧ (callTargetV1 (fun a => a != "") (some ()) pgStateValid
      (Except.error (some "execution reverted"))).targetResult = none
    ∧ (checkErc1271 (fun a => a) expValidState
      (Except.error (CallError.base "revert short" "full message"))).erc1271Error
      = some (getErrorMessageExp (CallError.base "revert short" "full message"))
    ∧ (checkErc1271 (fun a => a) expValidState
      (Except.error (CallError.base "revert short" "full message"))).erc1271Result
      = none := by
  have h := query_error_keeps_result_null (fun a => a != "") (some ()) pgStateValid
    (some "execution reverted") (fun a => a) expValidState
    (CallError.base "revert short" "full message") (by decide) (by decide)
  exact ⟨h.2.1, h.2.2.1, h.2.2.2.2.2.1, h.2.2.2.2.2.2⟩

/-- C6 counterexample: the wagmi-based `callTarget` has no client-presence
guard — with the chain client absent it still reports the hash-validation
error, contradicting "no other validation error is reported while the
client is absent" and "fails with its own distinct not-initialized error". -/
theorem callTargetV2_no_client_guard_cex :
    (callTargetV2 (fun a => a != "") none pgState2Empty (Except.ok none)).targetError
      = some "Enter a hash"
    ∧ "Enter a hash" ≠ "The public client has not been initialized yet"
    ∧ "Enter a hash" ≠ "Провайдер не инициализирован" := by
  decide

/-- C6 (amended): `fetchBytecode` and `checkErc1271`, as well as the
ethers-based (V1) `callHelper`/`callTarget`, check client/provider absence
first and fail with their distinct not-initialized message regardless of
the other inputs, without reaching the call phase; the wagmi-based (V2)
`callTarget`, however, performs no client-presence check at all — its
behaviour is identical whether a client is present or not. -/
theorem client_guard_characterization
    (checksum : String → String) (s : ExpState)
    (o1 : Except CallError (Option String)) (o2 : Except CallError String)
    (isAddr : String → Bool) (sv1 : PgState) (ov1 : Except (Option String) String)
    (c c2 : Option Unit) (sv2 : PgState2) (ov2 : Except CallError (Option String))
    (h : s.publicClient = none) :
    (fetchBytecode checksum s o1).bytecodeError
      = some "The public client has not been initialized yet"
    ∧ (fetchBytecode checksum s o1).isFetchingBytecode = s.isFetchingBytecode
    ∧ (checkErc1271 checksum s o2).erc1271Error
      = some "The public client has not been initialized yet"
    ∧ (checkErc1271 checksum s o2).isChecking1271 = s.isChecking1271
    ∧ (callHelperV1 isAddr none sv1 ov1).helperError = some "Провайдер не инициализирован"
    ∧ (callTargetV1 isAddr none sv1 ov1).targetError = some "Провайдер не инициализирован"
    ∧ callTargetV2 isAddr c sv2 ov2 = callTargetV2 isAddr c2 sv2 ov2 := by
  refine ⟨?_, ?_, ?_, ?_, ?_, ?_, rfl⟩ <;>
    simp [fetchBytecode, fetchBytecodeCheck, checkErc1271, checkErc1271Check,
      erc1271Cleared, callHelperV1, callHelperV1Check, callTargetV1,
      callTargetV1Check, h]

theorem client_guard_characterization_witness :
    (fetchBytecode (fun a => a) expNoClient (Except.ok (some "0x6001"))).bytecodeError
      = some "The public client has not been initialized yet"
    ∧ (checkErc1271 (fun a => a) expNoClient (Except.ok "0x1626ba7e")).erc1271Error
      = some "The public client has not been initialized yet"
    ∧ callTargetV2 (fun a => a != "") (some ()) pgState2Empty (Except.ok none)
      = callTargetV2 (fun a => a != "") none pgState2Empty (Except.ok none) := by
  have h := client_guard_characterization (fun a => a) expNoClient
    (Except.ok (some "0x6001")) (Except.ok "0x1626ba7e") (fun a => a != "")
    pgStateValid (Except.ok "0x") (some ()) none pgState2Empty (Except.ok none) rfl
  exact ⟨h.1, h.2.2.1, h.2.2.2.2.2.2⟩

/-- C8 counterexample: with domain/types/message all parsing to the empty
object and primaryType = "toString", the parsed types object has no such
own key, yet the JS lookup `typedData["toString"]` finds the inherited
(truthy) `Object.prototype.toString` function, so `generatePayload`
produces a payload — refuting "primaryType absent from types rejects the
whole payload". -/
theorem generatePayload_proto_cex :
    toyParse expProtoState.typesInput = some (Json.obj [])
    ∧ jsOwnProperty (Json.obj []) "toString" = none
    ∧ expProtoState.primaryType = "toString"
    ∧ (generatePayload toyParse toyStringify expProtoState).payloadForSigning.isSome = true
    ∧ (generatePayload toyParse toyStringify expProtoState).payloadError = none := by
  refine ⟨rfl, rfl, rfl, rfl, rfl⟩

/-- C8 (amended): a payload is produced only when all three JSON fields
parse and the nonempty `primaryType` has a truthy JS lookup in the parsed
types — a condition that inherited prototype-chain properties (such as
"toString") can also satisfy, not only own keys; malformed JSON in any
field, or a `primaryType` whose lookup is undefined, always leaves
`payloadForSigning` null with `payloadError` set, never a partial parse. -/
theorem generatePayload_payload_characterization (parse : String → Option Json)
    (stringify : Json → String) (s : ExpState) :
    ((generatePayload parse stringify s).payloadForSigning.isSome →
      (parse s.domainInput).isSome ∧ (parse s.typesInput).isSome
      ∧ (parse s.messageInput).isSome ∧ s.primaryType ≠ ""
      ∧ (∀ t, parse s.typesInput = some t →
          ∃ p, jsIndex t s.primaryType = some p ∧ jsTruthyProp p = true))
    ∧ ((parse s.domainInput = none ∨ parse s.typesInput = none
        ∨ parse s.messageInput = none
        ∨ (∀ t, parse s.typesInput = some t → jsIndex t s.primaryType = none)) →
      (generatePayload parse stringify s).payloadForSigning = none
      ∧ (generatePayload parse stringify s).payloadError.isSome) := by
  rcases hd : parse s.domainInput with _ | d
  · constructor
    · intro hp; exfalso; simp [generatePayload, hd] at hp
    · intro _; simp [generatePayload, hd]
  rcases ht : parse s.typesInput with _ | t
  · constructor
    · intro hp; exfalso; simp [generatePayload, hd, ht] at hp
    · intro _; simp [generatePayload, hd, ht]
  rcases hm : parse s.messageInput with _ | m
  · constructor
    · intro hp; exfalso; simp [generatePayload, hd, ht, hm] at hp
    · intro _; simp [generatePayload, hd, ht, hm]
  by_cases hp0 : s.primaryType = ""
  · constructor
    · intro hp; exfalso; simp [generatePayload, hd, ht, hm, hp0] at hp
    · intro _; simp [generatePayload, hd, ht, hm, hp0]
  cases hth : jsIndexThrows t
  · rcases hj : jsIndex t s.primaryType with _ | p
    · constructor
      · intro hp; exfalso; simp [generatePayload, hd, ht, hm, hp0, hth, hj] at hp
      · intro _; simp [generatePayload, hd, ht, hm, hp0, hth, hj]
    cases hv : jsTruthyProp p
    · constructor
      · intro hp; exfalso; simp [generatePayload, hd, ht, hm, hp0, hth, hj, hv] at hp
      · intro _; simp [generatePayload, hd, ht, hm, hp0, hth, hj, hv]
    · constructor
      · intro _
        refine ⟨by simp, by simp, by simp, hp0, ?_⟩
        intro t2 ht2
        have hte : t2 = t := (Option.some_inj.mp ht2).symm
        rw [hte, hj]
        exact ⟨p, rfl, hv⟩
      · intro hrej
        rcases hrej with hx | hx | hx | hx
        · simp at hx
        · simp at hx
        · simp at hx
        · exact absurd (hx t rfl) (by simp [hj])
  · constructor
    · intro hp; exfalso; simp [generatePayload, hd, ht, hm, hp0, hth] at hp
    · intro _; simp [generatePayload, hd, ht, hm, hp0, hth]

theorem generatePayload_payload_characterization_witness :
    (generatePayload toyParse toyStringify expBadTypesState).payloadForSigning = none
    ∧ (generatePayload toyParse toyStringify expBadTypesState).payloadError.isSome :=
  (generatePayload_payload_characterization toyParse toyStringify expBadTypesState).2
    (Or.inr (Or.inl rfl))
